import Mathlib

/-!
Verification of the command registry (src/src/commands/commands.c) and the
tooltip placement engine (src/src/ui/tooltips.cpp) of this repository,
as a shallow embedding in Lean 4.

The command registry is modelled generically over the ordered list of
registered commands (the static `commands[]` table is an ordered,
NULL-terminated sequence of `Command*`; its entries are defined in other
translation units, so the theorems quantify over the registry contents).
-/

namespace Aseprite

/-! ## Command registry data model (src/src/commands/commands.c) -/

/-- Result of running a command's `execute` callable.  C callables are
`void (*)(const char*)`: they always return to the caller, but we record
whether the body ran normally or hit an internal fault, to state that the
console sink is closed either way. -/
inductive ExecResult where
  | ok
  | fault
deriving Repr, DecidableEq

/-- Observable events emitted by `command_execute`: the console sink
open/close pair and the invocation of the command's callable. -/
inductive CEvent where
  | consoleOpen
  | invokeExecute (r : ExecResult)
  | consoleClose
deriving Repr, DecidableEq

/-- A single key chord as seen by the accelerator matcher: the
modifier/ASCII/scancode triple (`msg->any.shifts`, `msg->key.ascii`,
`msg->key.scancode`). -/
structure Chord where
  shifts : Nat
  ascii : Nat
  scancode : Nat
deriving Repr, DecidableEq

/-- An accelerator set (`JAccel`): the set of chords bound to a command. -/
abbrev JAccel := List Chord

/-- A key input event, carrying the fields read by
`command_is_key_pressed`. -/
structure KeyMsg where
  shifts : Nat
  ascii : Nat
  scancode : Nat
deriving Repr, DecidableEq

/-- Modelled from the spec: `jaccel_check` (the accelerator matcher of the
jinete toolkit, external interface of section 6, not under src/) returns
whether the given modifier/char/scancode triple matches the accelerator
set; a set matches when some chord in it matches the event triple. -/
def jaccel_check (accel : JAccel) (shifts ascii scancode : Nat) : Bool :=
  accel.any fun c => c.shifts == shifts && c.ascii == ascii && c.scancode == scancode

/-- The `Command` struct: unique name, optional `execute`/`enabled`/`checked`
callables, and an optional (lazily created) accelerator set.  A NULL function
pointer is `none`; a NULL `Command*` is `none` at `Option Command`. -/
structure Command where
  name : String
  execute : Option (Option String → ExecResult)
  enabled : Option (Option String → Bool)
  checked : Option (Option String → Bool)
  accel : Option JAccel

/-- `command_get_by_name`: NULL name yields NULL; otherwise linear scan of
the registry in declaration order, first name match wins. -/
def command_get_by_name (commands : List Command) : Option String → Option Command
  | none => none
  | some name => commands.find? fun c => c.name == name

/-- `command_is_key_pressed`: a command with no accelerator set never
matches; otherwise defer to `jaccel_check`. -/
def command_is_key_pressed (command : Command) (msg : KeyMsg) : Bool :=
  match command.accel with
  | some accel => jaccel_check accel msg.shifts msg.ascii msg.scancode
  | none => false

/-- `command_get_by_key`: linear scan of the registry in declaration order,
returning the first command whose accelerator matches the event. -/
def command_get_by_key (commands : List Command) (msg : KeyMsg) : Option Command :=
  commands.find? fun c => command_is_key_pressed c msg

/-- `command_is_enabled`: if the command is non-NULL and defines an
`enabled` predicate, call it; otherwise default to TRUE. -/
def command_is_enabled (command : Option Command) (arg : Option String) : Bool :=
  match command with
  | some c =>
    match c.enabled with
    | some f => f arg
    | none => true
  | none => true

/-- `command_is_checked`: symmetric to `command_is_enabled`, default FALSE. -/
def command_is_checked (command : Option Command) (arg : Option String) : Bool :=
  match command with
  | some c =>
    match c.checked with
    | some f => f arg
    | none => false
  | none => false

/-- `command_execute`, as the trace of events it emits: `console_open()`,
then the callable exactly when the command is non-NULL, has an `execute`
callable and `command_is_enabled` holds (the C guard with its
short-circuit order), then `console_close()` unconditionally. -/
def command_execute (command : Option Command) (arg : Option String) : List CEvent :=
  [CEvent.consoleOpen]
  ++ (match command with
      | some c =>
        match c.execute with
        | some f =>
          if command_is_enabled command arg then [CEvent.invokeExecute (f arg)] else []
        | none => []
      | none => [])
  ++ [CEvent.consoleClose]

/-- `command_reset_keys`: frees every command's accelerator set and sets the
pointer back to NULL, across the whole registry. -/
def command_reset_keys (commands : List Command) : List Command :=
  commands.map fun c => { c with accel := none }

/-- Specification predicate for claim C1: the trace of `command_execute`
opens the console first, closes it last, contains exactly one open and one
close, and invokes the callable exactly when the command is non-NULL, has
an execute callable, and `command_is_enabled` holds. -/
def executeTraceOk (command : Option Command) (arg : Option String) : Prop :=
  (command_execute command arg).head? = some CEvent.consoleOpen ∧
  (command_execute command arg).getLast? = some CEvent.consoleClose ∧
  (command_execute command arg).count CEvent.consoleOpen = 1 ∧
  (command_execute command arg).count CEvent.consoleClose = 1 ∧
  ((∃ r, CEvent.invokeExecute r ∈ command_execute command arg) ↔
    (∃ c f, command = some c ∧ c.execute = some f ∧
      command_is_enabled command arg = true))

/-- A sample chord used by the concrete witnesses. -/
def sampleChord : Chord := ⟨0, 97, 10⟩

/-- A sample key event matching `sampleChord`. -/
def sampleMsg : KeyMsg := ⟨0, 97, 10⟩

/-- Concrete command bound to `sampleChord`, used by the witnesses. -/
def cmdUndo : Command :=
  { name := "undo", execute := none, enabled := none, checked := none,
    accel := some [sampleChord] }

/-- Concrete command also bound to `sampleChord` (overlapping accelerator),
used by the witnesses. -/
def cmdRedo : Command :=
  { name := "redo", execute := none, enabled := none, checked := none,
    accel := some [sampleChord] }

/-- Concrete command with no accelerator, used by the witnesses. -/
def cmdAbout : Command :=
  { name := "about", execute := none, enabled := none, checked := none,
    accel := none }

/-- Concrete three-command registry used by the witnesses: `cmdUndo` and
`cmdRedo` overlap on `sampleChord`; `cmdAbout` is registered first. -/
def sampleRegistry : List Command := [cmdAbout, cmdUndo, cmdRedo]

/-! ## Tooltip placement engine (src/src/ui/tooltips.cpp) -/

/-- Modelled from the spec: `gfx::Rect` of the external geometry library
(`gfx/rect.h`, not under src/), with C `int` coordinates as `Int`. -/
structure Rect where
  x : Int
  y : Int
  w : Int
  h : Int
deriving Repr, DecidableEq

/-- Modelled from the spec: `gfx::Rect::isEmpty` — a rectangle with width
or height below 1 is empty. -/
def Rect.isEmpty (r : Rect) : Bool :=
  r.w < 1 || r.h < 1

/-- Modelled from the spec: `gfx::Rect::intersects` — false if either
rectangle is empty, otherwise strict interval overlap on both axes. -/
def Rect.intersects (a rc : Rect) : Bool :=
  if a.isEmpty || rc.isEmpty then false
  else
    rc.x < a.x + a.w && a.x < rc.x + rc.w &&
    rc.y < a.y + a.h && a.y < rc.y + rc.h

/-- Modelled from the spec: the toolkit `MIN` macro on C ints. -/
def MIN (x y : Int) : Int := if x < y then x else y

/-- Modelled from the spec: the toolkit `MAX` macro on C ints. -/
def MAX (x y : Int) : Int := if x > y then x else y

/-- Modelled from the spec: the toolkit `MID(x,y,z) = MAX(x, MIN(y,z))`
macro, clamping `y` into `[x,z]` (for `x ≤ z`). -/
def MID (x y z : Int) : Int := MAX x (MIN y z)

/-- Alignment bit `JI_HORIZONTAL` of the toolkit alignment bitmask
(values from the toolkit headers, not under src/). -/
def JI_HORIZONTAL : Nat := 1

/-- Alignment bit `JI_VERTICAL`. -/
def JI_VERTICAL : Nat := 2

/-- Alignment bit `JI_LEFT`. -/
def JI_LEFT : Nat := 4

/-- Alignment bit `JI_CENTER`. -/
def JI_CENTER : Nat := 8

/-- Alignment bit `JI_RIGHT`. -/
def JI_RIGHT : Nat := 16

/-- Alignment bit `JI_TOP`. -/
def JI_TOP : Nat := 32

/-- Alignment bit `JI_MIDDLE`. -/
def JI_MIDDLE : Nat := 64

/-- Alignment bit `JI_BOTTOM`. -/
def JI_BOTTOM : Nat := 128

/-- The `switch (arrowAlign)` of `TooltipManager::onTick` computing the
candidate origin from the arrow alignment and the target bounds; an
alignment matching no case keeps the incoming `(x,y)` (which start at the
mouse position plus `12*guiscale()` and afterwards carry the previous
attempt's clamped position).  C integer division truncates toward zero,
matching `Int.div`. -/
def alignOrigin (arrowAlign : Nat) (bounds : Rect) (w h x y : Int) : Int × Int :=
  if arrowAlign = (JI_TOP ||| JI_LEFT) then
    (bounds.x + bounds.w, bounds.y + bounds.h)
  else if arrowAlign = (JI_TOP ||| JI_RIGHT) then
    (bounds.x - w, bounds.y + bounds.h)
  else if arrowAlign = (JI_BOTTOM ||| JI_LEFT) then
    (bounds.x + bounds.w, bounds.y - h)
  else if arrowAlign = (JI_BOTTOM ||| JI_RIGHT) then
    (bounds.x - w, bounds.y - h)
  else if arrowAlign = JI_TOP then
    (bounds.x + bounds.w.tdiv 2 - w.tdiv 2, bounds.y + bounds.h)
  else if arrowAlign = JI_BOTTOM then
    (bounds.x + bounds.w.tdiv 2 - w.tdiv 2, bounds.y - h)
  else if arrowAlign = JI_LEFT then
    (bounds.x + bounds.w, bounds.y + bounds.h.tdiv 2 - h.tdiv 2)
  else if arrowAlign = JI_RIGHT then
    (bounds.x - w, bounds.y + bounds.h.tdiv 2 - h.tdiv 2)
  else
    (x, y)

/-- The "Switch position" mutation applied on collision at attempts 0 and
2: toggle the vertical bit pair if any vertical bit is set, then the
horizontal bit pair if any horizontal bit is set. -/
def switchPosition (arrowAlign : Nat) : Nat :=
  let a := if arrowAlign &&& (JI_TOP ||| JI_BOTTOM) ≠ 0
           then arrowAlign ^^^ (JI_TOP ||| JI_BOTTOM) else arrowAlign
  if a &&& (JI_LEFT ||| JI_RIGHT) ≠ 0 then a ^^^ (JI_LEFT ||| JI_RIGHT) else a

/-- The "Rotate positions" mutation applied on collision at attempt 1; the
second test reads the value already updated by the first, as in the C
source. -/
def rotatePosition (arrowAlign : Nat) : Nat :=
  let a := if arrowAlign &&& (JI_TOP ||| JI_LEFT) ≠ 0
           then arrowAlign ^^^ (JI_TOP ||| JI_LEFT) else arrowAlign
  if a &&& (JI_BOTTOM ||| JI_RIGHT) ≠ 0 then a ^^^ (JI_BOTTOM ||| JI_RIGHT) else a

/-- The alignment used for the next attempt after a collision at attempt
`trycount` (the inner `switch (trycount)`; attempt 3 has no case and
leaves the alignment unchanged). -/
def nextAlign (trycount : Nat) (arrowAlign : Nat) : Nat :=
  match trycount with
  | 0 => switchPosition arrowAlign
  | 1 => rotatePosition arrowAlign
  | 2 => switchPosition arrowAlign
  | _ => arrowAlign

/-- Immutable inputs of one placement search: the target widget bounds,
the display size, and the popup's remapped size. -/
structure PlaceEnv where
  bounds : Rect
  dispW : Int
  dispH : Int
  w : Int
  h : Int
deriving Repr, DecidableEq

/-- Outcome of the placement search: the final clamped origin with the
resolved arrow alignment and the attempt index that succeeded, or failure
after the attempts are exhausted. -/
inductive PlaceResult where
  | success (x y : Int) (arrowAlign : Nat) (trycount : Nat)
  | fail
deriving Repr, DecidableEq

/-- The `for (; trycount < 4; ++trycount)` retry loop of
`TooltipManager::onTick`, with `fuel` the number of remaining iterations
(`4 - trycount` at entry): compute the candidate origin, clamp it to the
display with `MID`, and either succeed (no intersection with the target)
or mutate the alignment and retry. -/
def tryPlaceFrom (env : PlaceEnv) : Nat → Nat → Nat → Int → Int → PlaceResult
  | 0, _, _, _, _ => PlaceResult.fail
  | fuel+1, trycount, arrowAlign, x, y =>
    let p := alignOrigin arrowAlign env.bounds env.w env.h x y
    let cx := MID 0 p.1 (env.dispW - env.w)
    let cy := MID 0 p.2 (env.dispH - env.h)
    if env.bounds.intersects ⟨cx, cy, env.w, env.h⟩ then
      tryPlaceFrom env fuel (trycount+1) (nextAlign trycount arrowAlign) cx cy
    else
      PlaceResult.success cx cy arrowAlign trycount

/-- The whole placement search of `TooltipManager::onTick`, starting at
attempt 0 with the preferred arrow alignment and the mouse-derived initial
`(x,y)`. -/
def placeTooltip (env : PlaceEnv) (arrowAlign : Nat) (x0 y0 : Int) : PlaceResult :=
  tryPlaceFrom env 4 0 arrowAlign x0 y0

/-- One candidate produced by the deterministic retry sequence: the
attempt index, the alignment tried, and the clamped candidate origin. -/
structure Attempt where
  trycount : Nat
  arrowAlign : Nat
  x : Int
  y : Int
deriving Repr, DecidableEq

/-- The deterministic sequence of candidates the retry loop would examine
(each entry's clamped origin feeds the next attempt, as in the C loop). -/
def attemptList (env : PlaceEnv) : Nat → Nat → Nat → Int → Int → List Attempt
  | 0, _, _, _, _ => []
  | fuel+1, trycount, arrowAlign, x, y =>
    let p := alignOrigin arrowAlign env.bounds env.w env.h x y
    let cx := MID 0 p.1 (env.dispW - env.w)
    let cy := MID 0 p.2 (env.dispH - env.h)
    Attempt.mk trycount arrowAlign cx cy ::
      attemptList env fuel (trycount+1) (nextAlign trycount arrowAlign) cx cy

/-- The first candidate of a list whose clamped rectangle does not
intersect the target, as a placement result. -/
def firstFit (env : PlaceEnv) (l : List Attempt) : PlaceResult :=
  match l.find? (fun att => !(env.bounds.intersects ⟨att.x, att.y, env.w, env.h⟩)) with
  | some att => PlaceResult.success att.x att.y att.arrowAlign att.trycount
  | none => PlaceResult.fail

/-- Specification predicate for claim C2 (as amended): unconditionally, a
successful placement never intersects the target and uses at most 4
attempts, and the search equals taking the first non-colliding candidate
of the deterministic 4-entry attempt sequence; the fits-display proviso
(`w ≤ display_width`, `h ≤ display_height`) scopes only the in-display
conjunct. -/
def placementSound (env : PlaceEnv) (arrowAlign : Nat) (x0 y0 : Int) : Prop :=
  (∀ cx cy a t, placeTooltip env arrowAlign x0 y0 = PlaceResult.success cx cy a t →
    env.bounds.intersects ⟨cx, cy, env.w, env.h⟩ = false ∧ t < 4 ∧
    (env.w ≤ env.dispW → env.h ≤ env.dispH →
      0 ≤ cx ∧ cx + env.w ≤ env.dispW ∧ 0 ≤ cy ∧ cy + env.h ≤ env.dispH)) ∧
  (attemptList env 4 0 arrowAlign x0 y0).length = 4 ∧
  placeTooltip env arrowAlign x0 y0 = firstFit env (attemptList env 4 0 arrowAlign x0 y0)

/-! ## Tooltip manager state machine (src/src/ui/tooltips.cpp) -/

/-- `TipInfo`: tooltip text plus the preferred arrow alignment bitmask. -/
structure TipInfo where
  text : String
  arrowAlign : Nat
deriving Repr, DecidableEq

/-- `TooltipManager::m_target`: the hovered widget (identified by an
opaque handle) and its `TipInfo`. -/
structure Target where
  widget : Nat
  tipInfo : TipInfo
deriving Repr, DecidableEq

/-- The observable state of an open `TipWindow`: its text, the target
rectangle it was created for, and the resolved arrow alignment and
position. -/
structure TipWin where
  text : String
  target : Rect
  arrowAlign : Nat
  x : Int
  y : Int
deriving Repr, DecidableEq

/-- The `TooltipManager` state: the widget→tip side table `m_tips`, the
current `m_target`, the single-shot timer `m_timer` (`none` = not yet
created, `some b` = created with running flag `b`), and the popup
`m_tipWindow`. -/
structure TmState where
  tips : List (Nat × TipInfo)
  target : Target
  timer : Option Bool
  tipWindow : Option TipWin
deriving Repr, DecidableEq

/-- External collaborators consulted while handling a tick: the widget
geometry provider, the mouse position, the GUI scale, the display size,
and the remapped popup size as a function of the tip text. -/
structure TickEnv where
  getBounds : Nat → Rect
  mouseX : Int
  mouseY : Int
  guiscale : Int
  dispW : Int
  dispH : Int
  measure : String → Int × Int

/-- The message types filtered by the `TooltipManager`. -/
inductive UIMsg where
  | mouseEnter (recipients : List Nat)
  | keyDown
  | mouseDown
  | mouseLeave
  | other

/-- Body of the `kMouseEnterMessage` recipient loop: a recipient present
in `m_tips` becomes the new target and the delay timer is (re)started
(created on first use); other recipients leave the state unchanged. -/
def enterStep (s : TmState) (wid : Nat) : TmState :=
  match s.tips.lookup wid with
  | some info => { s with target := ⟨wid, info⟩, timer := some true }
  | none => s

/-- `TooltipManager::onProcessMessage`: mouse-enter folds the recipient
loop over the state; key-down, mouse-down and mouse-leave close the popup
(if open) and stop the timer (if created); other messages are left to the
base class. -/
def TooltipManager.onProcessMessage (st : TmState) : UIMsg → TmState
  | UIMsg.mouseEnter recipients => recipients.foldl enterStep st
  | UIMsg.keyDown =>
    { st with tipWindow := none, timer := st.timer.map fun _ => false }
  | UIMsg.mouseDown =>
    { st with tipWindow := none, timer := st.timer.map fun _ => false }
  | UIMsg.mouseLeave =>
    { st with tipWindow := none, timer := st.timer.map fun _ => false }
  | UIMsg.other => st

/-- The placement inputs `TooltipManager::onTick` assembles for the
current target: its bounds from the geometry provider, the display size,
and the remapped popup size for the tip text. -/
def tickPlaceEnv (env : TickEnv) (st : TmState) : PlaceEnv :=
  { bounds := env.getBounds st.target.widget
    dispW := env.dispW
    dispH := env.dispH
    w := (env.measure st.target.tipInfo.text).1
    h := (env.measure st.target.tipInfo.text).2 }

/-- The placement search `TooltipManager::onTick` runs, with the initial
`(x,y)` at the mouse position plus `12*guiscale()`. -/
def tickPlacement (env : TickEnv) (st : TmState) : PlaceResult :=
  placeTooltip (tickPlaceEnv env st) st.target.tipInfo.arrowAlign
    (env.mouseX + 12 * env.guiscale) (env.mouseY + 12 * env.guiscale)

/-- `TooltipManager::onTick`: if a popup is already open, only the final
`m_timer->stop()` runs; otherwise run the placement search and either open
the popup at the resolved position (then stop the timer) or reset the
window and stop the timer on exhaustion (the stop in the `trycount == 4`
branch followed by the unconditional final stop). -/
def TooltipManager.onTick (env : TickEnv) (st : TmState) : TmState :=
  match st.tipWindow with
  | some _ => { st with timer := st.timer.map fun _ => false }
  | none =>
    match tickPlacement env st with
    | PlaceResult.success cx cy a _ =>
      { st with
          tipWindow := some
            { text := st.target.tipInfo.text
              target := (tickPlaceEnv env st).bounds
              arrowAlign := a
              x := cx
              y := cy }
          timer := st.timer.map fun _ => false }
    | PlaceResult.fail =>
      { st with tipWindow := none, timer := st.timer.map fun _ => false }

/-- Whether the single-shot timer is currently running. -/
def timerActive (st : TmState) : Bool :=
  st.timer == some true

/-- Specification predicate for claim C9's popup-ownership part: whatever
popup `onTick` leaves open carries the current target's tip text and the
current target widget's bounds. -/
def popupMatchesTarget (env : TickEnv) (st : TmState) : Bool :=
  match (TooltipManager.onTick env st).tipWindow with
  | some tw =>
    tw.text == st.target.tipInfo.text && tw.target == env.getBounds st.target.widget
  | none => true

/-! ## TipWindow preferred size (src/src/ui/tooltips.cpp) -/

/-- Modelled from the spec: `gfx::Size` with C `int` fields. -/
structure JSize where
  w : Int
  h : Int
deriving Repr, DecidableEq

/-- The widget's border insets (`border_width.l/t/r/b`). -/
structure BorderWidth where
  l : Int
  t : Int
  r : Int
  b : Int
deriving Repr, DecidableEq

/-- The componentwise maximum of the children's preferred sizes, as
accumulated by the `UI_FOREACH_WIDGET` loop of
`TipWindow::onPreferredSize` starting from `Size(0, 0)`. -/
def childrenMaxSize (children : List JSize) : JSize :=
  children.foldl (fun m s => ⟨MAX m.w s.w, MAX m.h s.h⟩) ⟨0, 0⟩

/-- `TipWindow::onPreferredSize`: the text-fitting size (`fitString`, an
external text-measurement collaborator, passed here as the already fitted
size) plus border insets; with children, the width is maxed against the
children's max width plus horizontal borders and the children's max
height is added to the height. -/
def TipWindow.onPreferredSize (fit : JSize) (border : BorderWidth)
    (children : List JSize) : JSize :=
  let resultSize : JSize :=
    ⟨fit.w + border.l + border.r, fit.h + border.t + border.b⟩
  if children.isEmpty then resultSize
  else
    let maxSize := childrenMaxSize children
    ⟨MAX resultSize.w (border.l + maxSize.w + border.r), resultSize.h + maxSize.h⟩

/-! ## Concrete sample states and environments for the witnesses -/

/-- Tip info for the witnesses: arrow at top-left, so the popup goes
below-right of the target. -/
def tipA : TipInfo := ⟨"tip a", JI_TOP ||| JI_LEFT⟩

/-- A second tip info for the witnesses. -/
def tipB : TipInfo := ⟨"tip b", JI_TOP ||| JI_LEFT⟩

/-- Placement inputs where the target fills the whole display, so all 4
attempts collide. -/
def exhaustEnv : TickEnv :=
  { getBounds := fun _ => ⟨0, 0, 800, 600⟩
    mouseX := 0, mouseY := 0, guiscale := 1
    dispW := 800, dispH := 600
    measure := fun _ => (60, 30) }

/-- Manager state with a pending session for widget 1 and no open popup. -/
def exhaustState : TmState :=
  { tips := [(1, tipA)], target := ⟨1, tipA⟩, timer := some true, tipWindow := none }

/-- Placement inputs with a small target at (100,100), where the first
attempt already succeeds. -/
def hoverEnv : TickEnv :=
  { getBounds := fun _ => ⟨100, 100, 50, 20⟩
    mouseX := 0, mouseY := 0, guiscale := 1
    dispW := 800, dispH := 600
    measure := fun _ => (60, 30) }

/-- Manager state with tips registered for widgets 1 and 2, and an idle
session. -/
def hoverState : TmState :=
  { tips := [(1, tipA), (2, tipB)], target := ⟨0, ⟨"", 0⟩⟩, timer := none,
    tipWindow := none }

/-- Manager state in the Shown sub-state: the popup opened for widget 1
is still on screen (as `onTick` would have opened it at `(150,120)`). -/
def shownState : TmState :=
  { tips := [(1, tipA), (2, tipB)], target := ⟨1, tipA⟩, timer := none,
    tipWindow := some
      { text := "tip a", target := ⟨100, 100, 50, 20⟩,
        arrowAlign := JI_TOP ||| JI_LEFT, x := 150, y := 120 } }

/-! ## Helper lemmas -/

/-- `find?` returns the first element satisfying the predicate: from any
index satisfying `p`, there is a first such index at or before it, and
`find?` returns exactly that element. -/
theorem find?_first_match {α : Type} (p : α → Bool) :
    ∀ (l : List α) (i : Nat) (hi : i < l.length), p (l.get ⟨i, hi⟩) = true →
      ∃ (k : Nat) (hk : k < l.length), k ≤ i ∧ p (l.get ⟨k, hk⟩) = true ∧
        (∀ (m : Nat) (hm : m < l.length), m < k → p (l.get ⟨m, hm⟩) = false) ∧
        l.find? p = some (l.get ⟨k, hk⟩) := by
  intro l
  induction l with
  | nil => intro i hi; exact absurd hi (by simp)
  | cons a t ih =>
    intro i hi hp
    cases hpa : p a with
    | true =>
      refine ⟨0, by simp, Nat.zero_le i, hpa, ?_, ?_⟩
      · intro m hm hmk; exact absurd hmk (Nat.not_lt_zero m)
      · simp only [List.find?]
        rw [hpa]
        rfl
    | false =>
      cases i with
      | zero =>
        rw [List.get] at hp
        exact absurd hp (by simp [hpa])
      | succ n =>
        have hn : n < t.length := Nat.lt_of_succ_lt_succ hi
        obtain ⟨k, hk, hki, hpk, hmin, hfind⟩ := ih n hn hp
        refine ⟨k + 1, Nat.succ_lt_succ hk, Nat.succ_le_succ hki, hpk, ?_, ?_⟩
        · intro m hm hmk
          cases m with
          | zero => exact hpa
          | succ m' =>
            exact hmin m' (Nat.lt_of_succ_lt_succ hm) (Nat.lt_of_succ_lt_succ hmk)
        · simp only [List.find?]
          rw [hpa]
          exact hfind

/-- Auxiliary for claim C5: with pairwise distinct names, looking up any
registered command's name returns that command. -/
theorem get_by_name_mem_aux :
    ∀ (cmds : List Command), (cmds.map Command.name).Nodup →
      ∀ c ∈ cmds, command_get_by_name cmds (some c.name) = some c := by
  intro cmds
  induction cmds with
  | nil => intro _ c hc; exact absurd hc (List.not_mem_nil c)
  | cons a t ih =>
    intro hnd c hc
    have hnd0 : (∀ x ∈ t, ¬x.name = a.name) ∧ (t.map Command.name).Nodup := by
      simpa using hnd
    rcases List.mem_cons.mp hc with rfl | hct
    · simp [command_get_by_name, List.find?]
    · have hne : (a.name == c.name) = false := by
        refine beq_eq_false_iff_ne.mpr ?_
        intro h
        exact hnd0.1 c hct h.symm
      have htail := ih hnd0.2 c hct
      simp only [command_get_by_name, List.find?] at htail ⊢
      rw [hne]
      exact htail

/-- Auxiliary for claim C5: a name equal to no registered command's name
is not found. -/
theorem get_by_name_absent (cmds : List Command) (n : String)
    (h : ∀ c ∈ cmds, c.name ≠ n) : command_get_by_name cmds (some n) = none := by
  show cmds.find? (fun c => c.name == n) = none
  refine List.find?_eq_none.mpr ?_
  intro c hc
  simpa using h c hc

/-- `MAX` keeps its left argument as a lower bound. -/
theorem le_MAX_left (x y : Int) : x ≤ MAX x y := by
  unfold MAX
  split <;> omega

/-- `MID 0 y z` is nonnegative. -/
theorem MID_nonneg (y z : Int) : 0 ≤ MID 0 y z := by
  unfold MID MAX MIN
  split <;> split <;> omega

/-- `MID 0 y z` is at most `z` when `z` is nonnegative. -/
theorem MID_le (y z : Int) (hz : 0 ≤ z) : MID 0 y z ≤ z := by
  unfold MID MAX MIN
  split <;> split <;> omega

/-- Adding the same offsets to both arguments commutes with `MAX`. -/
theorem MAX_add_right (a m l r : Int) : MAX (a + l + r) (l + m + r) = MAX a m + l + r := by
  unfold MAX
  split <;> split <;> omega

/-- The deterministic attempt sequence has exactly `fuel` entries. -/
theorem attemptList_length (env : PlaceEnv) :
    ∀ (fuel t a : Nat) (x y : Int), (attemptList env fuel t a x y).length = fuel := by
  intro fuel
  induction fuel with
  | zero => intro t a x y; rfl
  | succ n ih => intro t a x y; simp [attemptList, ih]

/-- Any successful placement carries a `MID`-clamped origin, a
non-colliding rectangle, and an attempt index below `t + fuel`. -/
theorem tryPlaceFrom_success_shape (env : PlaceEnv) :
    ∀ (fuel t a : Nat) (x y cx cy : Int) (a' t' : Nat),
      tryPlaceFrom env fuel t a x y = PlaceResult.success cx cy a' t' →
      (∃ x1, cx = MID 0 x1 (env.dispW - env.w)) ∧
      (∃ y1, cy = MID 0 y1 (env.dispH - env.h)) ∧
      env.bounds.intersects ⟨cx, cy, env.w, env.h⟩ = false ∧
      t' < t + fuel := by
  intro fuel
  induction fuel with
  | zero =>
    intro t a x y cx cy a' t' h
    exact absurd h (by simp [tryPlaceFrom])
  | succ n ih =>
    intro t a x y cx cy a' t' h
    simp only [tryPlaceFrom] at h
    split at h
    · have hrec := ih (t+1) (nextAlign t a) _ _ cx cy a' t' h
      exact ⟨hrec.1, hrec.2.1, hrec.2.2.1, by omega⟩
    · rename_i hcond
      cases h
      refine ⟨⟨_, rfl⟩, ⟨_, rfl⟩, by simpa using hcond, by omega⟩

/-- Unfolding `firstFit` on a cons cell. -/
theorem firstFit_cons (env : PlaceEnv) (att : Attempt) (rest : List Attempt) :
    firstFit env (att :: rest)
      = if env.bounds.intersects ⟨att.x, att.y, env.w, env.h⟩ then firstFit env rest
        else PlaceResult.success att.x att.y att.arrowAlign att.trycount := by
  unfold firstFit
  simp only [List.find?]
  cases h : env.bounds.intersects ⟨att.x, att.y, env.w, env.h⟩ <;> simp [h]

/-- The retry loop is exactly the first non-colliding candidate of the
deterministic attempt sequence. -/
theorem tryPlaceFrom_eq_firstFit (env : PlaceEnv) :
    ∀ (fuel t a : Nat) (x y : Int),
      tryPlaceFrom env fuel t a x y = firstFit env (attemptList env fuel t a x y) := by
  intro fuel
  induction fuel with
  | zero => intro t a x y; rfl
  | succ n ih =>
    intro t a x y
    simp only [tryPlaceFrom, attemptList]
    rw [firstFit_cons]
    exact if_congr Iff.rfl (ih (t+1) (nextAlign t a) _ _) rfl

/-- Stopping the timer (`m_timer->stop()`, when the timer exists) never
leaves it running. -/
theorem stopped_timer_not_active (t : Option Bool) :
    ((t.map fun _ => false) == some true) = false := by
  cases t <;> rfl

/-- The mouse-enter recipient loop never touches the `m_tips` table. -/
theorem enterStep_tips (s : TmState) (wid : Nat) : (enterStep s wid).tips = s.tips := by
  unfold enterStep
  cases s.tips.lookup wid <;> rfl

/-- A recipient with a registered tip replaces the target and (re)starts
the timer. -/
theorem enterStep_found (s : TmState) (wid : Nat) (info : TipInfo)
    (h : s.tips.lookup wid = some info) :
    enterStep s wid = { s with target := ⟨wid, info⟩, timer := some true } := by
  unfold enterStep
  rw [h]

/-! ## Claim theorems -/

/-- Claim C1: for every command and argument, `command_execute` opens the
console sink first, invokes the command's callable exactly when the
command is non-null with an execute callable and `command_is_enabled`
holds, and closes the console sink last — exactly one open and one close
per call, even when the callable is skipped or its body faults. -/
theorem command_execute_console_discipline (command : Option Command)
    (arg : Option String) : executeTraceOk command arg := by
  unfold executeTraceOk command_execute
  rcases command with _ | c
  · refine ⟨rfl, rfl, rfl, rfl, ?_⟩
    constructor
    · rintro ⟨r, hr⟩
      simp at hr
    · rintro ⟨c, f, h, -, -⟩
      exact Option.noConfusion h
  · dsimp only
    rcases hE : c.execute with _ | f
    · refine ⟨rfl, rfl, rfl, rfl, ?_⟩
      constructor
      · rintro ⟨r, hr⟩
        simp at hr
      · rintro ⟨c', f, h, hf, -⟩
        obtain rfl := Option.some.inj h
        rw [hE] at hf
        exact Option.noConfusion hf
    · cases hEn : command_is_enabled (some c) arg with
      | false =>
        refine ⟨rfl, rfl, rfl, rfl, ?_⟩
        constructor
        · rintro ⟨r, hr⟩
          simp at hr
        · rintro ⟨c', f', h, -, hen⟩
          exact absurd hen (by simp)
      | true =>
        refine ⟨rfl, rfl, rfl, rfl, ?_⟩
        constructor
        · intro _
          exact ⟨c, f, rfl, hE, rfl⟩
        · intro _
          exact ⟨f arg, by simp⟩

/-- Claim C5: with the registry invariant that no two commands share a
name, `command_get_by_name` round-trips every registered command's name to
that command, and returns "not found" (a normal `none`, never a fault) for
any unregistered name and for a NULL name. -/
theorem command_get_by_name_roundtrip (cmds : List Command)
    (hnodup : (cmds.map Command.name).Nodup) :
    (∀ c ∈ cmds, command_get_by_name cmds (some c.name) = some c) ∧
    (∀ n, (∀ c ∈ cmds, c.name ≠ n) → command_get_by_name cmds (some n) = none) ∧
    command_get_by_name cmds none = none :=
  ⟨get_by_name_mem_aux cmds hnodup, fun n h => get_by_name_absent cmds n h, rfl⟩

/-- Witness for claim C5 on the concrete sample registry. -/
theorem command_get_by_name_roundtrip_witness :
    command_get_by_name sampleRegistry (some "undo") = some cmdUndo ∧
    command_get_by_name sampleRegistry (some "missing") = none ∧
    command_get_by_name sampleRegistry none = none := by
  have h := command_get_by_name_roundtrip sampleRegistry (by decide)
  exact ⟨h.1 cmdUndo (List.mem_cons_of_mem _ (List.mem_cons_self _ _)),
    h.2.1 "missing" (by decide), h.2.2⟩

/-- Claim C6: `command_get_by_key` scans the registry in declaration
order; whenever two registered commands both match the event's
modifier/ASCII/scancode triple, the returned command is the first matching
one, at or before the earlier of the two (first-registered wins). -/
theorem command_get_by_key_first_registered_wins (cmds : List Command)
    (msg : KeyMsg) (i j : Nat) (hi : i < cmds.length) (hj : j < cmds.length)
    (hij : i < j)
    (hpi : command_is_key_pressed (cmds.get ⟨i, hi⟩) msg = true)
    (hpj : command_is_key_pressed (cmds.get ⟨j, hj⟩) msg = true) :
    ∃ (k : Nat) (hk : k < cmds.length), k ≤ i ∧
      command_is_key_pressed (cmds.get ⟨k, hk⟩) msg = true ∧
      (∀ (m : Nat) (hm : m < cmds.length), m < k →
        command_is_key_pressed (cmds.get ⟨m, hm⟩) msg = false) ∧
      command_get_by_key cmds msg = some (cmds.get ⟨k, hk⟩) :=
  find?_first_match (fun c => command_is_key_pressed c msg) cmds i hi hpi

/-- Witness for claim C6: `cmdUndo` and `cmdRedo` overlap on
`sampleChord`; the first-registered of the two is returned. -/
theorem command_get_by_key_first_registered_wins_witness :
    command_get_by_key sampleRegistry sampleMsg = some cmdUndo := by
  obtain ⟨k, hk, hki, hpk, hmin, hfind⟩ :=
    command_get_by_key_first_registered_wins sampleRegistry sampleMsg 1 2
      (by decide) (by decide) (by decide) (by decide) (by decide)
  rcases Nat.le_one_iff_eq_zero_or_eq_one.mp hki with rfl | rfl
  · have h0 : sampleRegistry.get ⟨0, hk⟩ = cmdAbout := rfl
    rw [h0] at hpk
    exact absurd hpk (by decide)
  · exact hfind

/-- Claim C7: after `command_reset_keys`, every command in the registry
has an absent accelerator set, every subsequent `command_get_by_key`
lookup returns "not found" for every chord, and resetting twice leaves the
registry identical to resetting once. -/
theorem command_reset_keys_clears_all (cmds : List Command) :
    (∀ c ∈ command_reset_keys cmds, c.accel = none) ∧
    (∀ msg, command_get_by_key (command_reset_keys cmds) msg = none) ∧
    command_reset_keys (command_reset_keys cmds) = command_reset_keys cmds := by
  refine ⟨?_, ?_, ?_⟩
  · intro c hc
    rcases List.mem_map.mp (by simpa [command_reset_keys] using hc) with ⟨d, -, rfl⟩
    rfl
  · intro msg
    show (command_reset_keys cmds).find? (fun c => command_is_key_pressed c msg) = none
    refine List.find?_eq_none.mpr ?_
    intro c hc
    rcases List.mem_map.mp (by simpa [command_reset_keys] using hc) with ⟨d, -, rfl⟩
    simp [command_is_key_pressed]
  · unfold command_reset_keys
    rw [List.map_map]
    rfl

/-- Witness for claim C7 on the concrete sample registry. -/
theorem command_reset_keys_clears_all_witness :
    (command_reset_keys sampleRegistry).map Command.accel = [none, none, none] ∧
    command_get_by_key (command_reset_keys sampleRegistry) sampleMsg = none ∧
    command_reset_keys (command_reset_keys sampleRegistry)
      = command_reset_keys sampleRegistry := by
  have h := command_reset_keys_clears_all sampleRegistry
  exact ⟨rfl, h.2.1 sampleMsg, h.2.2⟩

/-- Counterexample to claim C2 as stated: with a popup wider than the
display (target `(500,500,10,10)`, display `800×600`, popup `900×30`,
arrow at top-left), the placement succeeds at origin `(0,510)` although
the popup rectangle extends past the display's right edge. -/
theorem tooltip_placement_escapes_display :
    placeTooltip ⟨⟨500, 500, 10, 10⟩, 800, 600, 900, 30⟩ (JI_TOP ||| JI_LEFT) 12 12
      = PlaceResult.success 0 510 (JI_TOP ||| JI_LEFT) 0 ∧
    ¬((0 : Int) + 900 ≤ 800) := by decide

/-- Claim C2 (as amended): for every placement input, a successful
placement never intersects the target and uses at most 4 attempts, and
the search tries the deterministic alternate-alignment sequence,
returning the first non-colliding of its 4 candidates — all
unconditionally; when additionally the popup fits the display
(`w ≤ display_width`, `h ≤ display_height`) the popup rectangle lies fully
inside `[0,display_width] × [0,display_height]`. -/
theorem tooltip_placement_sound (env : PlaceEnv) (arrowAlign : Nat) (x0 y0 : Int) :
    placementSound env arrowAlign x0 y0 := by
  refine ⟨?_, attemptList_length env 4 0 arrowAlign x0 y0,
    tryPlaceFrom_eq_firstFit env 4 0 arrowAlign x0 y0⟩
  intro cx cy a t h
  obtain ⟨⟨x1, rfl⟩, ⟨y1, rfl⟩, hint, hlt⟩ :=
    tryPlaceFrom_success_shape env 4 0 arrowAlign x0 y0 _ _ a t h
  refine ⟨hint, by omega, ?_⟩
  intro hw hh
  have hx := MID_le x1 (env.dispW - env.w) (by omega)
  have hy := MID_le y1 (env.dispH - env.h) (by omega)
  exact ⟨MID_nonneg _ _, by omega, MID_nonneg _ _, by omega⟩

/-- Witness for claim C2 at the spec's own concrete inputs: target
`(100,100,50,20)`, display `800×600`, popup `60×30`. -/
theorem tooltip_placement_sound_witness :
    placementSound ⟨⟨100, 100, 50, 20⟩, 800, 600, 60, 30⟩ (JI_TOP ||| JI_LEFT) 12 12 :=
  tooltip_placement_sound ⟨⟨100, 100, 50, 20⟩, 800, 600, 60, 30⟩ (JI_TOP ||| JI_LEFT)
    12 12

/-- Claim C3: when no popup is open and all 4 placement attempts collide,
`onTick` leaves no popup, stops the timer, and changes nothing else — a
silent no-op returning the engine to the idle state, surfaced to no
caller. -/
theorem tooltip_exhaustion_silent_noop (env : TickEnv) (st : TmState)
    (hwin : st.tipWindow = none) (hfail : tickPlacement env st = PlaceResult.fail) :
    TooltipManager.onTick env st
      = { st with tipWindow := none, timer := st.timer.map fun _ => false } ∧
    (TooltipManager.onTick env st).tipWindow = none ∧
    timerActive (TooltipManager.onTick env st) = false := by
  have hmain : TooltipManager.onTick env st
      = { st with tipWindow := none, timer := st.timer.map fun _ => false } := by
    unfold TooltipManager.onTick
    rw [hwin, hfail]
  refine ⟨hmain, by rw [hmain], ?_⟩
  rw [hmain]
  exact stopped_timer_not_active st.timer

/-- Witness for claim C3: the target fills the display, so every attempt
collides. -/
theorem tooltip_exhaustion_silent_noop_witness :
    (TooltipManager.onTick exhaustEnv exhaustState).tipWindow = none ∧
    timerActive (TooltipManager.onTick exhaustEnv exhaustState) = false := by
  have h := tooltip_exhaustion_silent_noop exhaustEnv exhaustState rfl (by decide)
  exact ⟨h.2.1, h.2.2⟩

/-- Claim C8: from every manager state, a key-down, mouse-down or
mouse-leave message leaves no popup open and no timer running —
unconditionally, whatever sub-state was active. -/
theorem tooltip_dismissal_unconditional (st : TmState) :
    ((TooltipManager.onProcessMessage st UIMsg.keyDown).tipWindow = none ∧
      timerActive (TooltipManager.onProcessMessage st UIMsg.keyDown) = false) ∧
    ((TooltipManager.onProcessMessage st UIMsg.mouseDown).tipWindow = none ∧
      timerActive (TooltipManager.onProcessMessage st UIMsg.mouseDown) = false) ∧
    ((TooltipManager.onProcessMessage st UIMsg.mouseLeave).tipWindow = none ∧
      timerActive (TooltipManager.onProcessMessage st UIMsg.mouseLeave) = false) :=
  ⟨⟨rfl, stopped_timer_not_active st.timer⟩,
   ⟨rfl, stopped_timer_not_active st.timer⟩,
   ⟨rfl, stopped_timer_not_active st.timer⟩⟩

/-- Counterexample to claim C9 as stated: in the Shown sub-state (popup
open for widget 1), a hover-enter over widget 2 replaces the target but
leaves widget 1's popup open, and the following tick opens nothing — the
open popup never belongs to the most recent hover-enter target. -/
theorem tooltip_hover_enter_keeps_open_popup :
    (TooltipManager.onProcessMessage shownState (UIMsg.mouseEnter [2])).target
      = ⟨2, tipB⟩ ∧
    (TooltipManager.onTick hoverEnv (TooltipManager.onProcessMessage shownState
        (UIMsg.mouseEnter [2]))).tipWindow = shownState.tipWindow ∧
    shownState.tipWindow.map TipWin.text = some "tip a" ∧
    tipB.text = "tip b" ∧ "tip a" ≠ "tip b" := by decide

/-- Claim C9 (as amended): a hover-enter over a widget with a registered
tip makes that widget the active target and (re)starts the timer, also
when another enter already ran (last hover-enter wins, no queueing, the
state holds a single target); whatever popup `onTick` opens — which
happens only when no popup is currently open — carries the current (most
recent) target's text and bounds; a popup already open (Shown) is not
closed by the hover-enter itself, and the following tick only stops the
timer, leaving the old popup on screen. -/
theorem tooltip_last_hover_enter_wins (st : TmState) (env : TickEnv)
    (w1 w2 : Nat) (i1 i2 : TipInfo)
    (h1 : st.tips.lookup w1 = some i1) (h2 : st.tips.lookup w2 = some i2) :
    (TooltipManager.onProcessMessage st (UIMsg.mouseEnter [w2])).target = ⟨w2, i2⟩ ∧
    (TooltipManager.onProcessMessage st (UIMsg.mouseEnter [w2])).timer = some true ∧
    (TooltipManager.onProcessMessage st (UIMsg.mouseEnter [w2])).tipWindow
      = st.tipWindow ∧
    (TooltipManager.onProcessMessage (TooltipManager.onProcessMessage st
        (UIMsg.mouseEnter [w1])) (UIMsg.mouseEnter [w2])).target = ⟨w2, i2⟩ ∧
    (TooltipManager.onProcessMessage (TooltipManager.onProcessMessage st
        (UIMsg.mouseEnter [w1])) (UIMsg.mouseEnter [w2])).timer = some true ∧
    (st.tipWindow = none → popupMatchesTarget env st = true) ∧
    (st.tipWindow.isSome = true → TooltipManager.onTick env st
      = { st with timer := st.timer.map fun _ => false }) := by
  have h2' : (enterStep st w1).tips.lookup w2 = some i2 := by
    rw [enterStep_tips]
    exact h2
  refine ⟨?_, ?_, ?_, ?_, ?_, ?_, ?_⟩
  · show (enterStep st w2).target = ⟨w2, i2⟩
    rw [enterStep_found st w2 i2 h2]
  · show (enterStep st w2).timer = some true
    rw [enterStep_found st w2 i2 h2]
  · show (enterStep st w2).tipWindow = st.tipWindow
    rw [enterStep_found st w2 i2 h2]
  · show (enterStep (enterStep st w1) w2).target = ⟨w2, i2⟩
    rw [enterStep_found _ w2 i2 h2']
  · show (enterStep (enterStep st w1) w2).timer = some true
    rw [enterStep_found _ w2 i2 h2']
  · intro hwin
    unfold popupMatchesTarget TooltipManager.onTick
    rw [hwin]
    cases hp : tickPlacement env st with
    | success cx cy a t => simp [tickPlaceEnv]
    | fail => rfl
  · intro hs
    cases hw : st.tipWindow with
    | none => rw [hw] at hs; exact absurd hs (by simp)
    | some tw =>
      unfold TooltipManager.onTick
      rw [hw]

/-- Witness for claim C9: on the idle sample state the popup the tick
opens is the most recent target's; on the Shown sample state the tick
only stops the timer. -/
theorem tooltip_last_hover_enter_wins_witness :
    (TooltipManager.onProcessMessage hoverState (UIMsg.mouseEnter [2])).target
      = ⟨2, tipB⟩ ∧
    (TooltipManager.onProcessMessage hoverState (UIMsg.mouseEnter [2])).timer
      = some true ∧
    (TooltipManager.onProcessMessage (TooltipManager.onProcessMessage hoverState
        (UIMsg.mouseEnter [1])) (UIMsg.mouseEnter [2])).target = ⟨2, tipB⟩ ∧
    (TooltipManager.onProcessMessage (TooltipManager.onProcessMessage hoverState
        (UIMsg.mouseEnter [1])) (UIMsg.mouseEnter [2])).timer = some true ∧
    popupMatchesTarget hoverEnv hoverState = true ∧
    TooltipManager.onTick hoverEnv shownState
      = { shownState with timer := shownState.timer.map fun _ => false } := by
  have ha := tooltip_last_hover_enter_wins hoverState hoverEnv 1 2 tipA tipB rfl rfl
  have hb := tooltip_last_hover_enter_wins shownState hoverEnv 1 2 tipA tipB rfl rfl
  exact ⟨ha.1, ha.2.1, ha.2.2.2.1, ha.2.2.2.2.1, ha.2.2.2.2.2.1 rfl,
    hb.2.2.2.2.2.2 rfl⟩

/-- Claim C10: `onTick` stops the delay timer on every control-flow path —
popup already open, successful show, and placement exhaustion — so the
timer is never left running after a tick. -/
theorem tooltip_tick_stops_timer (env : TickEnv) (st : TmState) :
    timerActive (TooltipManager.onTick env st) = false := by
  unfold TooltipManager.onTick
  cases st.tipWindow with
  | some w => exact stopped_timer_not_active st.timer
  | none =>
    cases tickPlacement env st with
    | success cx cy a t => exact stopped_timer_not_active st.timer
    | fail => exact stopped_timer_not_active st.timer

/-- Counterexample to claim C4 as stated: with text-fitting size `10×10`,
borders `1` on every side, and two children of heights `10` and `20`, the
computed height is `32` — text height plus borders plus the children's
maximum height — not text height plus the children's height sum (with or
without borders). -/
theorem tip_window_height_not_sum :
    (TipWindow.onPreferredSize ⟨10, 10⟩ ⟨1, 1, 1, 1⟩ [⟨5, 10⟩, ⟨5, 20⟩]).h = 32 ∧
    (32 : Int) ≠ 10 + 1 + 1 + (10 + 20) ∧ (32 : Int) ≠ 10 + (10 + 20) := by decide

/-- Claim C4 (as amended): with no children the preferred size is the
text-fitting size plus border insets; with children, the width is the max
of the text width and the children's max width, plus horizontal borders,
and the height is the text height plus vertical borders plus the
children's maximum height. -/
theorem tip_window_preferred_size_spec (fit : JSize) (border : BorderWidth)
    (children : List JSize) :
    (children = [] → TipWindow.onPreferredSize fit border children
        = ⟨fit.w + border.l + border.r, fit.h + border.t + border.b⟩) ∧
    (children ≠ [] →
      (TipWindow.onPreferredSize fit border children).w
          = MAX fit.w (childrenMaxSize children).w + border.l + border.r ∧
      (TipWindow.onPreferredSize fit border children).h
          = fit.h + border.t + border.b + (childrenMaxSize children).h) := by
  constructor
  · rintro rfl
    rfl
  · intro hne
    cases children with
    | nil => exact absurd rfl hne
    | cons a t =>
      refine ⟨?_, rfl⟩
      exact MAX_add_right fit.w (childrenMaxSize (a :: t)).w border.l border.r

/-- Witness for claim C4 at the counterexample's inputs. -/
theorem tip_window_preferred_size_spec_witness :
    (TipWindow.onPreferredSize ⟨10, 10⟩ ⟨1, 1, 1, 1⟩ [⟨5, 10⟩, ⟨5, 20⟩]).w
        = MAX 10 (childrenMaxSize [⟨5, 10⟩, ⟨5, 20⟩]).w + 1 + 1 ∧
    (TipWindow.onPreferredSize ⟨10, 10⟩ ⟨1, 1, 1, 1⟩ [⟨5, 10⟩, ⟨5, 20⟩]).h
        = 10 + 1 + 1 + (childrenMaxSize [⟨5, 10⟩, ⟨5, 20⟩]).h :=
  (tip_window_preferred_size_spec ⟨10, 10⟩ ⟨1, 1, 1, 1⟩ [⟨5, 10⟩, ⟨5, 20⟩]).2
    (by decide)

end Aseprite
